import Mathlib

/-!
Shallow embedding of the dashboard controller in `src/static/js/main.js`
(DashBoardThermalAnalizerProject): the navigator state
(`currentDatasetIndex`, `totalDatasets`), the button click handlers, the
periodic summary refresh (`updateTemporalPlot`), the detail loader
(`updateDetailPlots`), the control re-rendering (`updateControls`), and an
event-level model of the asynchronous detail fetches.

JS numbers hold small exact integers throughout this file, embedded as `ℤ`;
temperature values are embedded as `ℚ`.  A network call is embedded as an
explicit `FetchResult` argument: the environment's choice of how the fetch
resolved (network failure, non-success HTTP status, unparsable body, or a
parsed payload).
-/

namespace Dashboard

/-- The module-scoped mutable state of `main.js` (lines 4-5):
`currentDatasetIndex` and `totalDatasets`. -/
structure NavState where
  index : ℤ
  total : ℤ
deriving DecidableEq, Repr

/-- The state at `DOMContentLoaded`: `currentDatasetIndex = 0`,
`totalDatasets = 0`. -/
def initState : NavState := ⟨0, 0⟩

/-- Line 50: `totalDatasets = summaryData.length;`.  The assignment writes
the fetched list's length into `totalDatasets` and does not touch
`currentDatasetIndex`. -/
def setTotalAssign (n : ℤ) (s : NavState) : NavState := ⟨s.index, n⟩

/-- How a `fetch` of a payload of type `α` resolved: the promise rejected
(network error), `response.ok` was false (non-success HTTP status, which
the code turns into a thrown `Error`), `response.json()` rejected
(unparsable body), or a parsed value arrived. -/
inductive FetchResult (α : Type) where
  | networkError
  | httpError
  | parseError
  | ok (value : α)
deriving DecidableEq

/-- One element of the `/api/data/summary` response array. -/
structure SummaryPoint where
  timestamp : String
  max_temp : ℚ
  min_temp : ℚ
deriving DecidableEq

/-- The data handed to `Plotly.newPlot('temporal-plot', ...)` (lines 53-84):
the shared x axis of timestamps and the two y series. -/
structure TemporalChart where
  x : List String
  yMax : List ℚ
  yMin : List ℚ
deriving DecidableEq

/-- The rendered control strip: the text of `#dataset-counter` and the
`disabled` flags of `#btn-prev` and `#btn-next`. -/
structure ControlView where
  label : String
  prevDisabled : Bool
  nextDisabled : Bool
deriving DecidableEq, Repr

/-- Function `updateControls` (lines 167-171):
`counterEl.textContent = totalDatasets > 0 ? currentDatasetIndex+1 / totalDatasets : '0 / 0'`
(template string with a space around the slash),
`btnPrev.disabled = currentDatasetIndex <= 0`,
`btnNext.disabled = currentDatasetIndex >= totalDatasets - 1`. -/
def updateControls (index total : ℤ) : ControlView :=
  { label := if total > 0 then toString (index + 1) ++ " / " ++ toString total else "0 / 0",
    prevDisabled := decide (index ≤ 0),
    nextDisabled := decide (index ≥ total - 1) }

/-- Everything one run of `updateTemporalPlot` (lines 44-90) does besides
returning: the resulting navigator state, what was handed to `Plotly.newPlot`
(`none` = the call never happened), the control strip recomputed by the
`updateControls()` call at line 85 (`none` = not called), and whether the
`catch` at line 87 logged an error. -/
structure SummaryOutcome where
  nav : NavState
  chart : Option TemporalChart
  controls : Option ControlView
  logged : Bool
deriving DecidableEq

/-- Function `updateTemporalPlot` (lines 44-90), the summary refresh.  On any
failure (rejected fetch, `!response.ok`, rejected `json()`) control jumps to
the `catch` before line 50, so the state is untouched and nothing is
rendered.  On success the length is assigned to `totalDatasets` (line 50),
and if it is zero the function returns early (line 51) without plotting and
without calling `updateControls`. -/
def updateTemporalPlot (s : NavState) (r : FetchResult (List SummaryPoint)) :
    SummaryOutcome :=
  match r with
  | .networkError => ⟨s, none, none, true⟩
  | .httpError => ⟨s, none, none, true⟩
  | .parseError => ⟨s, none, none, true⟩
  | .ok summaryData =>
    let s2 := setTotalAssign (summaryData.length : ℤ) s
    if s2.total = 0 then ⟨s2, none, none, false⟩
    else
      ⟨s2,
       some ⟨summaryData.map (fun d => d.timestamp),
             summaryData.map (fun d => d.max_temp),
             summaryData.map (fun d => d.min_temp)⟩,
       some (updateControls s2.index s2.total),
       false⟩

/-- The `stats` object of a `/api/data/detail/{index}` response. -/
structure DetailStats where
  min : ℚ
  max : ℚ
  avg : ℚ
deriving DecidableEq

/-- The `matrices` object of a `/api/data/detail/{index}` response. -/
structure DetailMatrices where
  temperature : List (List ℚ)
  gradient_magnitude : List (List ℚ)
  hot_roi : List (List ℚ)
deriving DecidableEq

/-- A parsed `/api/data/detail/{index}` response. -/
structure DetailRecord where
  filename : String
  stats : DetailStats
  matrices : DetailMatrices
deriving DecidableEq

/-- Two-decimal rendering of a temperature, modelling `x.toFixed(2)` over
`ℚ` (rounding half up; the IEEE-754 double subtleties of `toFixed` are
abstracted away — no claim depends on the digits produced). -/
def toFixed2 (q : ℚ) : String :=
  let m : ℤ := Int.floor (q * 100 + 1 / 2)
  let sign := if m < 0 then "-" else ""
  let a := m.natAbs
  let frac := a % 100
  sign ++ toString (a / 100) ++ "." ++ (if frac < 10 then "0" else "") ++ toString frac

/-- A temperature stat label, `x.toFixed(2) + ' °C'` (lines 100-102). -/
def fmtTemp (q : ℚ) : String := toFixed2 q ++ " °C"

/-- The z matrix plus color bounds handed to `Plotly.react` for the 3D
surface and the 2D heatmap (lines 107-128). -/
structure SurfacePlot where
  z : List (List ℚ)
  cmin : ℚ
  cmax : ℚ
deriving DecidableEq

/-- The detail pane: `#dataset-filename`, the three stat labels, and what
each of the five `Plotly.react` targets currently shows (`none` = never
rendered since page load). -/
structure DetailView where
  filename : String
  statMin : String
  statMax : String
  statAvg : String
  plot3d : Option SurfacePlot
  plot2d : Option SurfacePlot
  histogramPlot : Option (List ℚ)
  gradientPlot : Option (List (List ℚ))
  roiPlot : Option (List (List ℚ))
deriving DecidableEq

/-- Function `updateDetailPlots` (lines 92-164).  On any failure control
jumps to the `catch` at line 161 before any DOM write, leaving the detail
pane `v` untouched; the returned `Bool` records whether the catch logged an
error.  On success every label and all five plots are rewritten from the
parsed record — note the `index` argument is used only for the request URL
and the error message: the success path never compares it with
`currentDatasetIndex`. -/
def updateDetailPlots (index : ℤ) (r : FetchResult DetailRecord)
    (v : DetailView) : DetailView × Bool :=
  match r with
  | .networkError => (v, true)
  | .httpError => (v, true)
  | .parseError => (v, true)
  | .ok detailData =>
    ({ filename := detailData.filename,
       statMin := fmtTemp detailData.stats.min,
       statMax := fmtTemp detailData.stats.max,
       statAvg := fmtTemp detailData.stats.avg,
       plot3d := some ⟨detailData.matrices.temperature, detailData.stats.min,
                       detailData.stats.max⟩,
       plot2d := some ⟨detailData.matrices.temperature, detailData.stats.min,
                       detailData.stats.max⟩,
       histogramPlot := some detailData.matrices.temperature.flatten,
       gradientPlot := some detailData.matrices.gradient_magnitude,
       roiPlot := some detailData.matrices.hot_roi }, false)

/-- Everything one button click does: the navigator state afterwards, the
control strip recomputed by `updateControls()` (`none` = not called), and
the index of the `updateDetailPlots` call it issued (`none` = none issued). -/
structure ClickOutcome where
  nav : NavState
  controls : Option ControlView
  detailFetch : Option ℤ
deriving DecidableEq

/-- The `btnNext` click handler (lines 181-187): only when
`currentDatasetIndex < totalDatasets - 1` does it increment the index,
re-render the controls and issue a detail fetch for the new index. -/
def btnNextClick (s : NavState) : ClickOutcome :=
  if s.index < s.total - 1 then
    ⟨⟨s.index + 1, s.total⟩, some (updateControls (s.index + 1) s.total),
     some (s.index + 1)⟩
  else ⟨s, none, none⟩

/-- The `btnPrev` click handler (lines 173-179): only when
`currentDatasetIndex > 0` does it decrement the index, re-render the
controls and issue a detail fetch for the new index. -/
def btnPrevClick (s : NavState) : ClickOutcome :=
  if s.index > 0 then
    ⟨⟨s.index - 1, s.total⟩, some (updateControls (s.index - 1) s.total),
     some (s.index - 1)⟩
  else ⟨s, none, none⟩

/-- Everything the startup function (lines 190-196) does: it awaits one
`updateTemporalPlot`, issues a detail fetch for the current index only if
`totalDatasets > 0`, and then unconditionally calls `updateControls()`. -/
structure StartupOutcome where
  nav : NavState
  detailFetch : Option ℤ
  controls : ControlView
deriving DecidableEq

/-- The startup function declared at lines 190-196 and invoked at line 198,
run from `initState` with the given resolution of its summary fetch. -/
def pageStartup (r : FetchResult (List SummaryPoint)) : StartupOutcome :=
  let o := updateTemporalPlot initState r
  { nav := o.nav,
    detailFetch := if o.nav.total > 0 then some o.nav.index else none,
    controls := updateControls o.nav.index o.nav.total }

/-- The navigator invariant stated by the specification's data model:
`0 ≤ index < total` whenever `total > 0`, and `index = 0` when
`total = 0`. -/
def NavInvariant (s : NavState) : Prop :=
  (0 < s.total → 0 ≤ s.index ∧ s.index < s.total) ∧ (s.total = 0 → s.index = 0)

instance (s : NavState) : Decidable (NavInvariant s) := by
  unfold NavInvariant; infer_instance

/-- The navigator states reachable from page load: the initial state,
followed by any interleaving of summary refreshes (each writing some fetched
length `n : ℕ` into `totalDatasets` via line 50) and button clicks. -/
inductive Reachable : NavState → Prop
  | init : Reachable initState
  | refresh (n : ℕ) {s : NavState} : Reachable s →
      Reachable (setTotalAssign (n : ℤ) s)
  | next {s : NavState} : Reachable s → Reachable (btnNextClick s).nav
  | prev {s : NavState} : Reachable s → Reachable (btnPrevClick s).nav

/-- Transport of reachability along an equality of states. -/
theorem reachable_cast {s t : NavState} (h : Reachable s) (e : s = t) :
    Reachable t := e ▸ h

/-- The navigator states reachable when every summary refresh is
append-only: the fetched length is at least the previous `totalDatasets`
(the specification's "datasets appended" regime). -/
inductive ReachableAppend : NavState → Prop
  | init : ReachableAppend initState
  | refresh (n : ℕ) {s : NavState} : ReachableAppend s → s.total ≤ (n : ℤ) →
      ReachableAppend (setTotalAssign (n : ℤ) s)
  | next {s : NavState} : ReachableAppend s → ReachableAppend (btnNextClick s).nav
  | prev {s : NavState} : ReachableAppend s → ReachableAppend (btnPrevClick s).nav

/-- Transport of append-only reachability along an equality of states. -/
theorem reachableAppend_cast {s t : NavState} (h : ReachableAppend s)
    (e : s = t) : ReachableAppend t := e ▸ h

/-- The page at the granularity of the asynchronous detail traffic: the
navigator state, the indices of in-flight `updateDetailPlots` calls, and the
index whose detail record the detail pane currently shows (`none` = nothing
shown yet). -/
structure WorldState where
  nav : NavState
  pending : List ℤ
  displayed : Option ℤ
deriving DecidableEq

/-- An event the page reacts to: a click on either button, a summary
refresh whose fetched list has length `n`, or the successful arrival of the
response of an in-flight detail fetch for index `i`. -/
inductive UiEvent where
  | clickNext
  | clickPrev
  | refreshTotal (n : ℕ)
  | detailResponse (i : ℤ)
deriving DecidableEq

/-- One event step.  A click issues a fetch exactly when the handler's guard
fires.  A successful detail response for `i` is applied exactly as
`updateDetailPlots` does: it renders record `i` unconditionally — the code
has no comparison between the fetched index and `currentDatasetIndex`. -/
def uiStep (w : WorldState) (e : UiEvent) : WorldState :=
  match e with
  | .clickNext =>
    let o := btnNextClick w.nav
    match o.detailFetch with
    | some i => { w with nav := o.nav, pending := w.pending ++ [i] }
    | none => w
  | .clickPrev =>
    let o := btnPrevClick w.nav
    match o.detailFetch with
    | some i => { w with nav := o.nav, pending := w.pending ++ [i] }
    | none => w
  | .refreshTotal n => { w with nav := setTotalAssign (n : ℤ) w.nav }
  | .detailResponse i =>
    if i ∈ w.pending then
      { w with pending := w.pending.erase i, displayed := some i }
    else w

/-- Run of a list of events from a world state. -/
def uiRun (w : WorldState) (es : List UiEvent) : WorldState := es.foldl uiStep w

/-- A concrete summary point, used for concrete refresh payloads. -/
def pt : SummaryPoint := ⟨"t", 0, 0⟩

/-- A concrete detail pane, used as the prior view in concrete runs. -/
def someView : DetailView :=
  ⟨"capture_0.csv", "1.00 °C", "2.00 °C", "1.50 °C", none, none, none, none, none⟩

/-- C10: in every reachable state `currentDatasetIndex ≥ 0` — it starts at
0, the `btnPrev` handler only decrements when it is positive, the `btnNext`
handler only increments, and the summary refresh never modifies it. -/
theorem reachable_index_nonneg (s : NavState) (h : Reachable s) : 0 ≤ s.index := by
  induction h with
  | init => simp [initState]
  | refresh n h ih => simpa [setTotalAssign] using ih
  | next h ih =>
    unfold btnNextClick
    split <;> simp only [] <;> omega
  | prev h ih =>
    unfold btnPrevClick
    split <;> simp only [] <;> omega

/-- Witness for C10 at the reachable state `⟨1, 3⟩`. -/
theorem reachable_index_nonneg_witness : 0 ≤ (⟨1, 3⟩ : NavState).index := by
  have h0 := Reachable.init
  have h1 := reachable_cast (Reachable.refresh 3 h0)
    (by decide : setTotalAssign ((3 : ℕ) : ℤ) initState = ⟨0, 3⟩)
  have h2 := reachable_cast (Reachable.next h1)
    (by decide : (btnNextClick ⟨0, 3⟩).nav = ⟨1, 3⟩)
  exact reachable_index_nonneg ⟨1, 3⟩ h2

/-- C5: for every state with `index ≥ 0`, the `btnPrev` click decrements the
index, re-renders the controls and issues a detail fetch for the new index
exactly when `index > 0`; otherwise it is a no-op (state unchanged, no
re-render, no detail fetch), and the no-op case occurs exactly when
`index = 0`. -/
theorem prev_click_spec (s : NavState) (h : 0 ≤ s.index) :
    (0 < s.index →
      btnPrevClick s =
        ⟨⟨s.index - 1, s.total⟩, some (updateControls (s.index - 1) s.total),
         some (s.index - 1)⟩) ∧
    (s.index = 0 → btnPrevClick s = ⟨s, none, none⟩) ∧
    (btnPrevClick s = ⟨s, none, none⟩ ↔ s.index = 0) := by
  unfold btnPrevClick
  by_cases hp : s.index > 0
  · rw [if_pos hp]
    refine ⟨fun _ => rfl, fun h0 => absurd hp (by omega), ?_⟩
    constructor
    · intro he
      have := congrArg ClickOutcome.detailFetch he
      simp at this
    · intro h0; exact absurd hp (by omega)
  · rw [if_neg hp]
    exact ⟨fun hq => absurd hq hp, fun _ => rfl, iff_of_true rfl (by omega)⟩

/-- Witness for C5 at the state `⟨0, 1⟩`: the click is a no-op. -/
theorem prev_click_spec_witness : btnPrevClick ⟨0, 1⟩ = ⟨⟨0, 1⟩, none, none⟩ :=
  (prev_click_spec ⟨0, 1⟩ (by decide)).2.1 rfl

/-- C7: when the summary fetch fails (network error, non-success HTTP
status, or unparsable body), `updateTemporalPlot` leaves the navigator state
unchanged, renders no chart, recomputes no controls, and catches and logs
the error. -/
theorem summary_failure_spec (s : NavState) (r : FetchResult (List SummaryPoint))
    (h : r = .networkError ∨ r = .httpError ∨ r = .parseError) :
    updateTemporalPlot s r = ⟨s, none, none, true⟩ := by
  rcases h with h | h | h <;> subst h <;> rfl

/-- Witness for C7 at the state `⟨1, 4⟩` with a parse failure. -/
theorem summary_failure_spec_witness :
    updateTemporalPlot ⟨1, 4⟩ .parseError = ⟨⟨1, 4⟩, none, none, true⟩ :=
  summary_failure_spec ⟨1, 4⟩ .parseError (Or.inr (Or.inr rfl))

/-- C8: when the detail fetch fails (network error, non-success HTTP status
— including not-found for an out-of-range index — or unparsable body),
`updateDetailPlots` leaves the filename label, the three stat labels and all
five plots untouched, and catches and logs the error. -/
theorem detail_failure_spec (index : ℤ) (r : FetchResult DetailRecord)
    (v : DetailView)
    (h : r = .networkError ∨ r = .httpError ∨ r = .parseError) :
    updateDetailPlots index r v = (v, true) := by
  rcases h with h | h | h <;> subst h <;> rfl

/-- Witness for C8: a not-found response for the out-of-range index 7 leaves
a concrete prior detail pane untouched. -/
theorem detail_failure_spec_witness :
    updateDetailPlots 7 .httpError someView = (someView, true) :=
  detail_failure_spec 7 .httpError someView (Or.inr (Or.inl rfl))

/-- Under append-only refreshes the navigator invariant holds, along with
nonnegativity of both fields. -/
theorem reachableAppend_inv (s : NavState) (h : ReachableAppend s) :
    NavInvariant s ∧ 0 ≤ s.total ∧ 0 ≤ s.index := by
  induction h with
  | init => simp [initState, NavInvariant]
  | refresh n h hle ih =>
    simp only [NavInvariant, setTotalAssign] at *
    omega
  | next h ih =>
    unfold btnNextClick
    simp only [NavInvariant] at *
    split <;> simp only [] <;> omega
  | prev h ih =>
    unfold btnPrevClick
    simp only [NavInvariant] at *
    split <;> simp only [] <;> omega

/-- C1 (amended): the navigator invariant — `0 ≤ index < total` when
`total > 0`, `index = 0` when `total = 0` — holds in every state reachable
from `index = 0, total = 0` when every summary refresh is append-only
(the fetched length is at least the previous total); `btnNext` and `btnPrev`
preserve it unconditionally, but line 50 writes the new total without
clamping the index, so a refresh that shrinks the total below `index + 1`
breaks it. -/
theorem append_only_invariant (s : NavState) (h : ReachableAppend s) :
    NavInvariant s :=
  (reachableAppend_inv s h).1

/-- Witness for C1 at the append-only reachable state `⟨1, 2⟩`. -/
theorem append_only_invariant_witness : NavInvariant ⟨1, 2⟩ := by
  have h0 := ReachableAppend.init
  have h1 := reachableAppend_cast (ReachableAppend.refresh 2 h0 (by decide))
    (by decide : setTotalAssign ((2 : ℕ) : ℤ) initState = ⟨0, 2⟩)
  have h2 := reachableAppend_cast (ReachableAppend.next h1)
    (by decide : (btnNextClick ⟨0, 2⟩).nav = ⟨1, 2⟩)
  exact append_only_invariant ⟨1, 2⟩ h2

/-- Counterexample to C1 as stated: the state `⟨1, 1⟩` is reachable (set
the total to 2, click next, then let a refresh shrink the total to 1 —
line 50 does not clamp the index), and it violates the invariant. -/
theorem invariant_counterexample : Reachable ⟨1, 1⟩ ∧ ¬ NavInvariant ⟨1, 1⟩ := by
  constructor
  · have h0 := Reachable.init
    have h1 := reachable_cast (Reachable.refresh 2 h0)
      (by decide : setTotalAssign ((2 : ℕ) : ℤ) initState = ⟨0, 2⟩)
    have h2 := reachable_cast (Reachable.next h1)
      (by decide : (btnNextClick ⟨0, 2⟩).nav = ⟨1, 2⟩)
    exact reachable_cast (Reachable.refresh 1 h2)
      (by decide : setTotalAssign ((1 : ℕ) : ℤ) ⟨1, 2⟩ = ⟨1, 1⟩)
  · decide

/-- C2 (amended): the summary refresh writes the fetched list's length into
`totalDatasets` and leaves `currentDatasetIndex` unchanged — no clamping
occurs even when the index falls at or beyond the new total. -/
theorem refresh_no_clamp (s : NavState) (l : List SummaryPoint) :
    (updateTemporalPlot s (.ok l)).nav.index = s.index ∧
    (updateTemporalPlot s (.ok l)).nav.total = (l.length : ℤ) := by
  show ((if _ then _ else _ : SummaryOutcome)).nav.index = _ ∧
    ((if _ then _ else _ : SummaryOutcome)).nav.total = _
  split <;> exact ⟨rfl, rfl⟩

/-- Counterexample to C2 as stated: a refresh whose list shrank to length 3
while the state is `index = 4, total = 5` leaves the index at 4, not at the
claimed clamp `max (3 - 1) 0 = 2`. -/
theorem refresh_clamp_counterexample :
    (updateTemporalPlot ⟨4, 5⟩ (.ok [pt, pt, pt])).nav.index = 4 ∧
    (updateTemporalPlot ⟨4, 5⟩ (.ok [pt, pt, pt])).nav.index ≠ max ((3 : ℤ) - 1) 0 := by
  constructor <;> decide

/-- C4 (amended): the `btnNext` click increments the index, re-renders the
controls and issues a detail fetch for the new index exactly when
`index < total - 1`; otherwise it is a no-op (state unchanged, no re-render,
no detail fetch), and the no-op case occurs exactly when
`index ≥ total - 1` — which under the navigator invariant (with the data
model's nonnegative total) is exactly `index = total - 1` or `total = 0`. -/
theorem next_click_spec (s : NavState) :
    (s.index < s.total - 1 →
      btnNextClick s =
        ⟨⟨s.index + 1, s.total⟩, some (updateControls (s.index + 1) s.total),
         some (s.index + 1)⟩) ∧
    (s.total - 1 ≤ s.index → btnNextClick s = ⟨s, none, none⟩) ∧
    (btnNextClick s = ⟨s, none, none⟩ ↔ s.total - 1 ≤ s.index) ∧
    (0 ≤ s.total → NavInvariant s →
      (btnNextClick s = ⟨s, none, none⟩ ↔ s.index = s.total - 1 ∨ s.total = 0)) := by
  unfold btnNextClick
  by_cases hn : s.index < s.total - 1
  · rw [if_pos hn]
    have hne : (⟨⟨s.index + 1, s.total⟩,
        some (updateControls (s.index + 1) s.total),
        some (s.index + 1)⟩ : ClickOutcome) ≠ ⟨s, none, none⟩ := by
      intro he
      have := congrArg ClickOutcome.detailFetch he
      simp at this
    refine ⟨fun _ => rfl, fun h0 => absurd hn (by omega),
      iff_of_false hne (by omega), fun ht hinv => iff_of_false hne ?_⟩
    rcases hinv with ⟨h1, h2⟩
    rintro (h3 | h3) <;> omega
  · rw [if_neg hn]
    refine ⟨fun h0 => absurd h0 hn, fun _ => rfl,
      iff_of_true rfl (by omega), fun ht hinv => iff_of_true rfl ?_⟩
    rcases hinv with ⟨h1, h2⟩
    by_cases h0 : s.total = 0
    · exact Or.inr h0
    · exact Or.inl (by have := h1 (by omega); omega)

/-- Witness for C4 at the state `⟨2, 5⟩`, which satisfies the invariant:
the click is not a no-op there. -/
theorem next_click_spec_witness :
    btnNextClick ⟨2, 5⟩ =
      ⟨⟨3, 5⟩, some (updateControls 3 5), some 3⟩ :=
  (next_click_spec ⟨2, 5⟩).1 (by decide)

/-- Counterexample to C4 as stated: the state `⟨4, 3⟩` is reachable (total
5, four next clicks, then a refresh shrinks the total to 3 without
clamping), the click is a no-op there, yet neither `index = total - 1` nor
`total = 0` holds. -/
theorem next_click_counterexample :
    Reachable ⟨4, 3⟩ ∧ btnNextClick ⟨4, 3⟩ = ⟨⟨4, 3⟩, none, none⟩ ∧
      ¬ ((4 : ℤ) = 3 - 1 ∨ (3 : ℤ) = 0) := by
  refine ⟨?_, by decide, by decide⟩
  have h0 := Reachable.init
  have h1 := reachable_cast (Reachable.refresh 5 h0)
    (by decide : setTotalAssign ((5 : ℕ) : ℤ) initState = ⟨0, 5⟩)
  have h2 := reachable_cast (Reachable.next h1)
    (by decide : (btnNextClick ⟨0, 5⟩).nav = ⟨1, 5⟩)
  have h3 := reachable_cast (Reachable.next h2)
    (by decide : (btnNextClick ⟨1, 5⟩).nav = ⟨2, 5⟩)
  have h4 := reachable_cast (Reachable.next h3)
    (by decide : (btnNextClick ⟨2, 5⟩).nav = ⟨3, 5⟩)
  have h5 := reachable_cast (Reachable.next h4)
    (by decide : (btnNextClick ⟨3, 5⟩).nav = ⟨4, 5⟩)
  exact reachable_cast (Reachable.refresh 3 h5)
    (by decide : setTotalAssign ((3 : ℕ) : ℤ) ⟨4, 5⟩ = ⟨4, 3⟩)

/-- C3 (amended): the arrival of a successful detail response renders the
record for the index it was fetched for unconditionally — `updateDetailPlots`
never compares that index with the navigator's current one, so a
late-arriving response for an index the user has navigated away from does
overwrite the detail pane. -/
theorem detail_response_unguarded (w : WorldState) (i : ℤ) (h : i ∈ w.pending) :
    (uiStep w (.detailResponse i)).displayed = some i ∧
    (uiStep w (.detailResponse i)).nav = w.nav := by
  simp [uiStep, h]

/-- Witness for C3 at a world showing index 3 with a stale fetch for index 2
in flight: the response for 2 is rendered although the current index is 3. -/
theorem detail_response_unguarded_witness :
    (uiStep ⟨⟨3, 5⟩, [2], some 3⟩ (.detailResponse 2)).displayed = some 2 ∧
    (uiStep ⟨⟨3, 5⟩, [2], some 3⟩ (.detailResponse 2)).nav = ⟨3, 5⟩ :=
  detail_response_unguarded ⟨⟨3, 5⟩, [2], some 3⟩ 2 (by decide)

/-- Counterexample to C3 as stated, on the specification's own scenario: a
detail fetch for index 2 is in flight, the user navigates to index 3, the
fetch for 3 resolves first, and then the late response for 2 arrives — the
run ends with the navigator at index 3 but the detail pane showing index 2:
the stale response was rendered, not discarded. -/
theorem stale_response_counterexample :
    uiRun ⟨initState, [], none⟩
      [.refreshTotal 5, .clickNext, .detailResponse 1, .clickNext, .clickNext,
       .detailResponse 3, .detailResponse 2] =
      ⟨⟨3, 5⟩, [], some 2⟩ := by
  decide

/-- C6 (amended): `updateControls` is a pure function of `(index, total)`:
the label is `"<index+1> / <total>"` — with a space on each side of the
slash — when `total > 0` and `"0 / 0"` when `total = 0`, the previous
control is enabled exactly when `index > 0`, and the next control is enabled
exactly when `index < total - 1`; identical inputs yield identical
outputs. -/
theorem controls_spec (index total : ℤ) :
    (0 < total → (updateControls index total).label =
      toString (index + 1) ++ " / " ++ toString total) ∧
    (total = 0 → (updateControls index total).label = "0 / 0") ∧
    ((updateControls index total).prevDisabled = false ↔ 0 < index) ∧
    ((updateControls index total).nextDisabled = false ↔ index < total - 1) ∧
    (∀ i2 t2, i2 = index → t2 = total →
      updateControls i2 t2 = updateControls index total) := by
  refine ⟨fun h => ?_, fun h => ?_, ?_, ?_, ?_⟩
  · simp [updateControls, h]
  · simp [updateControls, h]
  · simp only [updateControls, decide_eq_false_iff_not]
    omega
  · simp only [updateControls, decide_eq_false_iff_not]
    omega
  · intro i2 t2 hi ht
    rw [hi, ht]

/-- Witness for C6 at `(2, 5)`: the next control is enabled. -/
theorem controls_spec_witness : (updateControls 2 5).nextDisabled = false :=
  ((controls_spec 2 5).2.2.2.1).mpr (by decide)

/-- Counterexample to C6 as stated: at `total = 0` the rendered label is
`"0 / 0"`, not the claimed `"0/0"`. -/
theorem controls_label_counterexample :
    (updateControls 0 0).label = "0 / 0" ∧ (updateControls 0 0).label ≠ "0/0" := by
  exact ⟨rfl, by decide⟩

/-- C9 (amended): a successful summary fetch of a list of length `n` always
writes `n` into `totalDatasets`; when `n > 0` it renders the time-series
chart from the list and recomputes the controls, but when `n = 0` the early
return at line 51 skips both, leaving chart and controls as they were.  The
`"0 / 0"` label with both buttons disabled arises from the startup
sequence, whose unconditional `updateControls()` call runs even when the
first refresh finds no datasets (and no detail fetch is attempted then). -/
theorem summary_success_spec (s : NavState) (l : List SummaryPoint) :
    (updateTemporalPlot s (.ok l)).nav = ⟨s.index, (l.length : ℤ)⟩ ∧
    (l ≠ [] →
      (updateTemporalPlot s (.ok l)).chart =
        some ⟨l.map (fun d => d.timestamp), l.map (fun d => d.max_temp),
              l.map (fun d => d.min_temp)⟩ ∧
      (updateTemporalPlot s (.ok l)).controls =
        some (updateControls s.index (l.length : ℤ))) ∧
    (l = [] → (updateTemporalPlot s (.ok l)).chart = none ∧
      (updateTemporalPlot s (.ok l)).controls = none) ∧
    (pageStartup (.ok ([] : List SummaryPoint))).controls = ⟨"0 / 0", true, true⟩ ∧
    (pageStartup (.ok ([] : List SummaryPoint))).detailFetch = none := by
  rcases l with _ | ⟨a, t⟩
  · exact ⟨rfl, fun h => absurd rfl h, fun _ => ⟨rfl, rfl⟩, rfl, rfl⟩
  · exact ⟨rfl, fun _ => ⟨rfl, rfl⟩, fun h => by simp at h, rfl, rfl⟩

/-- Witness for C9 with the one-element list `[pt]`: the chart is rendered
from it. -/
theorem summary_success_spec_witness :
    (updateTemporalPlot ⟨0, 0⟩ (.ok [pt])).chart =
      some ⟨[pt].map (fun d => d.timestamp), [pt].map (fun d => d.max_temp),
            [pt].map (fun d => d.min_temp)⟩ :=
  ((summary_success_spec ⟨0, 0⟩ [pt]).2.1 (by simp)).1

/-- Counterexample to C9 as stated: a refresh whose list is empty, arriving
at the state `⟨2, 5⟩`, sets the total to 0 but renders no chart and
recomputes no controls — the early return at line 51 skips both. -/
theorem summary_empty_counterexample :
    (updateTemporalPlot ⟨2, 5⟩ (.ok ([] : List SummaryPoint))).nav.total = 0 ∧
    (updateTemporalPlot ⟨2, 5⟩ (.ok ([] : List SummaryPoint))).chart = none ∧
    (updateTemporalPlot ⟨2, 5⟩ (.ok ([] : List SummaryPoint))).controls = none :=
  ⟨rfl, rfl, rfl⟩

end Dashboard
